import Mathlib

/-
Verification of `atomate/qchem/workflows/base/fragmentation.py`.

The file under study defines one factory function, `get_fragmentation_wf`,
which instantiates one or two firework job nodes supplied by an external
library and packages them into a named workflow container.  The firework
constructors and the workflow container are opaque collaborators: the
embedding records exactly the arguments the Python call sites pass to them.
-/

namespace Atomate

/-- The composition of a molecule.  Only `reduced_formula` is read by the
module under study (line 123 of the source). -/
structure Composition where
  reduced_formula : String
deriving Repr, DecidableEq

/-- An input molecule.  It is opaque to the module under study: apart from
`composition.reduced_formula` it is only forwarded to firework constructors.
`payload` stands for the rest of the molecule's data (geometry, charge, ...)
so that distinct molecules with the same formula exist in the model. -/
structure Molecule where
  composition : Composition
  payload : Nat
deriving Repr, DecidableEq

/-- A Python dictionary with string keys, in insertion order. -/
abbrev Dict (V : Type) : Type := List (String × V)

/-- Python dictionary assignment `d[k] = v`: overwrite the value in place when
the key is present, otherwise append the new pair at the end. -/
def dictSet {V : Type} (d : Dict V) (k : String) (v : V) : Dict V :=
  if d.any (fun p => p.1 = k) then
    d.map (fun p => if p.1 = k then (k, v) else p)
  else
    d ++ [(k, v)]

/-- A firework job node, recording the arguments of the two constructor call
sites in the source.  `FrequencyFlatteningOptimizeFW` is called with
molecule, name, qchem_cmd, max_cores, qchem_input_params and db_file
(lines 88-94).  `FragmentFW` is called with an optional molecule (absent in
the optimization branch), depth, open_rings, name, qchem_cmd, max_cores,
qchem_input_params, db_file, check_db and an optional parent (lines 97-107
and 111-120; the parent argument is absent, hence `none`, in the
no-optimization branch). -/
inductive Firework (V : Type) : Type where
  | FrequencyFlatteningOptimizeFW
      (molecule : Molecule) (name : String) (qchem_cmd : String)
      (max_cores : String) (qchem_input_params : Dict V) (db_file : String)
  | FragmentFW
      (molecule : Option Molecule) (depth : Int) (open_rings : Bool)
      (name : String) (qchem_cmd : String) (max_cores : String)
      (qchem_input_params : Dict V) (db_file : String) (check_db : Bool)
      (parents : Option (Firework V))
deriving Repr

/-- Whether a firework is a `FrequencyFlatteningOptimizeFW` node. -/
def Firework.isFFOpt {V : Type} : Firework V → Bool
  | .FrequencyFlatteningOptimizeFW _ _ _ _ _ _ => true
  | .FragmentFW _ _ _ _ _ _ _ _ _ _ => false

/-- Whether a firework is a `FragmentFW` node. -/
def Firework.isFragmentFW {V : Type} : Firework V → Bool
  | .FrequencyFlatteningOptimizeFW _ _ _ _ _ _ => false
  | .FragmentFW _ _ _ _ _ _ _ _ _ _ => true

/-- The molecule argument a firework constructor received, when one was
passed at the call site. -/
def Firework.moleculeArg {V : Type} : Firework V → Option Molecule
  | .FrequencyFlatteningOptimizeFW m _ _ _ _ _ => some m
  | .FragmentFW m _ _ _ _ _ _ _ _ _ => m

/-- The name argument of a firework. -/
def Firework.nameArg {V : Type} : Firework V → String
  | .FrequencyFlatteningOptimizeFW _ n _ _ _ _ => n
  | .FragmentFW _ _ _ n _ _ _ _ _ _ => n

/-- The qchem_cmd argument of a firework. -/
def Firework.qchemCmdArg {V : Type} : Firework V → String
  | .FrequencyFlatteningOptimizeFW _ _ c _ _ _ => c
  | .FragmentFW _ _ _ _ c _ _ _ _ _ => c

/-- The max_cores argument of a firework. -/
def Firework.maxCoresArg {V : Type} : Firework V → String
  | .FrequencyFlatteningOptimizeFW _ _ _ mc _ _ => mc
  | .FragmentFW _ _ _ _ _ mc _ _ _ _ => mc

/-- The qchem_input_params dictionary a firework constructor received. -/
def Firework.qipArg {V : Type} : Firework V → Dict V
  | .FrequencyFlatteningOptimizeFW _ _ _ _ q _ => q
  | .FragmentFW _ _ _ _ _ _ q _ _ _ => q

/-- The db_file argument of a firework. -/
def Firework.dbFileArg {V : Type} : Firework V → String
  | .FrequencyFlatteningOptimizeFW _ _ _ _ _ db => db
  | .FragmentFW _ _ _ _ _ _ _ db _ _ => db

/-- The depth argument, when the constructor has one (only `FragmentFW`). -/
def Firework.depthArg {V : Type} : Firework V → Option Int
  | .FrequencyFlatteningOptimizeFW _ _ _ _ _ _ => none
  | .FragmentFW _ d _ _ _ _ _ _ _ _ => some d

/-- The open_rings argument, when the constructor has one (only `FragmentFW`). -/
def Firework.openRingsArg {V : Type} : Firework V → Option Bool
  | .FrequencyFlatteningOptimizeFW _ _ _ _ _ _ => none
  | .FragmentFW _ _ o _ _ _ _ _ _ _ => some o

/-- The check_db argument, when the constructor has one (only `FragmentFW`). -/
def Firework.checkDbArg {V : Type} : Firework V → Option Bool
  | .FrequencyFlatteningOptimizeFW _ _ _ _ _ _ => none
  | .FragmentFW _ _ _ _ _ _ _ _ c _ => some c

/-- The parent firework passed at the call site, if any. -/
def Firework.parentsArg {V : Type} : Firework V → Option (Firework V)
  | .FrequencyFlatteningOptimizeFW _ _ _ _ _ _ => none
  | .FragmentFW _ _ _ _ _ _ _ _ _ p => p

/-- The workflow container returned to the caller: the list of fireworks, the
workflow name, and the free-form keyword arguments forwarded to the
`Workflow` constructor (line 125). -/
structure Workflow (V K : Type) where
  fireworks : List (Firework V)
  name : String
  kwargs : K
deriving Repr

/-- Lines 82-84 of the source, as the dictionary value both firework
constructors receive: `qchem_input_params = qchem_input_params or {}`
(Python `or` replaces `None` and the falsy empty dict by a fresh empty
dict) followed by `qchem_input_params["pcm_dielectric"] = pcm_dielectric`
when `pcm_dielectric` is not `None`. -/
def effective_qchem_input_params {V : Type} (pcm_dielectric : Option V)
    (qchem_input_params : Option (Dict V)) : Dict V :=
  let q : Dict V :=
    match qchem_input_params with
    | none => []
    | some d => if d.isEmpty then [] else d
  match pcm_dielectric with
  | none => q
  | some v => dictSet q "pcm_dielectric" v

/-- The value of the caller's `qchem_input_params` dictionary after the call,
modelling Python aliasing on lines 82-84: `qchem_input_params =
qchem_input_params or {}` rebinds the local name to a fresh dict when the
caller passed `None` or an empty (falsy) dict, so the subsequent in-place
assignment `qchem_input_params["pcm_dielectric"] = pcm_dielectric` mutates
the caller's dictionary exactly when the caller supplied a non-empty one. -/
def qchem_input_params_after {V : Type} (pcm_dielectric : Option V)
    (qchem_input_params : Option (Dict V)) : Option (Dict V) :=
  match qchem_input_params with
  | none => none
  | some d =>
    if d.isEmpty then some d
    else
      match pcm_dielectric with
      | none => some d
      | some v => some (dictSet d "pcm_dielectric" v)

/-- `get_fragmentation_wf` (lines 25-125 of the source).  Arguments are in the
source's order with the source's defaults; `**kwargs` is modelled as one
opaque value of type `K` forwarded to the `Workflow` constructor.  The body
computes the effective input-parameter dictionary (lines 82-84), builds
either the optimization firework followed by the fragmentation firework with
a parent link (lines 86-107), or the fragmentation firework alone
(lines 109-121), forms the name `"{}:{}".format(reduced_formula, name)`
(line 123) and returns the workflow (line 125). -/
def get_fragmentation_wf {V K : Type} (molecule : Molecule) (depth : Int)
    (open_rings : Bool := true)
    (pcm_dielectric : Option V := none)
    (do_optimization : Bool := true)
    (max_cores : String := ">>max_cores<<")
    (qchem_input_params : Option (Dict V) := none)
    (name : String := "FF then fragment")
    (qchem_cmd : String := ">>qchem_cmd<<")
    (db_file : String := ">>db_file<<")
    (check_db : Bool := true)
    (kwargs : K) : Workflow V K :=
  let qip : Dict V := effective_qchem_input_params pcm_dielectric qchem_input_params
  let wfname : String := molecule.composition.reduced_formula ++ ":" ++ name
  if do_optimization then
    let fw1 : Firework V :=
      .FrequencyFlatteningOptimizeFW molecule "first FF" qchem_cmd max_cores qip db_file
    let fw2 : Firework V :=
      .FragmentFW none depth open_rings "fragment and FF_opt" qchem_cmd max_cores
        qip db_file check_db (some fw1)
    { fireworks := [fw1, fw2], name := wfname, kwargs := kwargs }
  else
    let fw1 : Firework V :=
      .FragmentFW (some molecule) depth open_rings "fragment and FF_opt" qchem_cmd
        max_cores qip db_file check_db none
    { fireworks := [fw1], name := wfname, kwargs := kwargs }

/-- The same call with the translation's error channel made explicit: the body
of `get_fragmentation_wf` contains no raise, assert or validation check, so
its translation with error propagation has no error site and always returns
`Except.ok`. -/
def get_fragmentation_wf_run {V K : Type} (molecule : Molecule) (depth : Int)
    (open_rings : Bool) (pcm_dielectric : Option V) (do_optimization : Bool)
    (max_cores : String) (qchem_input_params : Option (Dict V)) (name : String)
    (qchem_cmd : String) (db_file : String) (check_db : Bool) (kwargs : K) :
    Except String (Workflow V K) :=
  Except.ok (get_fragmentation_wf molecule depth open_rings pcm_dielectric
    do_optimization max_cores qchem_input_params name qchem_cmd db_file
    check_db kwargs)

/-- A concrete molecule used by witnesses and counterexamples. -/
def H2O : Molecule := { composition := { reduced_formula := "H2O" }, payload := 0 }

/-- C1: for every input, if do_optimization is true then the workflow returned
by get_fragmentation_wf contains exactly two fireworks, the optimization node
first and the fragmentation node second, and the fragmentation node's parent
is the optimization node. -/
theorem C1_opt_then_fragment {V K : Type} (molecule : Molecule) (depth : Int)
    (open_rings : Bool) (pcm_dielectric : Option V) (do_optimization : Bool)
    (max_cores : String) (qchem_input_params : Option (Dict V)) (name : String)
    (qchem_cmd : String) (db_file : String) (check_db : Bool) (kwargs : K)
    (h : do_optimization = true) :
    ∃ o f, (get_fragmentation_wf molecule depth open_rings pcm_dielectric
        do_optimization max_cores qchem_input_params name qchem_cmd db_file
        check_db kwargs).fireworks = [o, f] ∧
      o.isFFOpt = true ∧ f.isFragmentFW = true ∧ f.parentsArg = some o := by
  subst h
  exact ⟨_, _, rfl, rfl, rfl, rfl⟩

/-- Witness for C1 at a concrete input with do_optimization set to true. -/
theorem C1_opt_then_fragment_witness :
    ∃ o f, (get_fragmentation_wf (V := Int) (K := Unit) H2O 1 true none true
        ">>max_cores<<" none "FF then fragment" ">>qchem_cmd<<" ">>db_file<<"
        true ()).fireworks = [o, f] ∧
      o.isFFOpt = true ∧ f.isFragmentFW = true ∧ f.parentsArg = some o :=
  C1_opt_then_fragment H2O 1 true none true ">>max_cores<<" none
    "FF then fragment" ">>qchem_cmd<<" ">>db_file<<" true () rfl

/-- C2: for every input, if do_optimization is false then the workflow
returned by get_fragmentation_wf contains exactly one firework, a
fragmentation node, with no parent link. -/
theorem C2_fragment_only {V K : Type} (molecule : Molecule) (depth : Int)
    (open_rings : Bool) (pcm_dielectric : Option V) (do_optimization : Bool)
    (max_cores : String) (qchem_input_params : Option (Dict V)) (name : String)
    (qchem_cmd : String) (db_file : String) (check_db : Bool) (kwargs : K)
    (h : do_optimization = false) :
    ∃ f, (get_fragmentation_wf molecule depth open_rings pcm_dielectric
        do_optimization max_cores qchem_input_params name qchem_cmd db_file
        check_db kwargs).fireworks = [f] ∧
      f.isFragmentFW = true ∧ f.parentsArg = none := by
  subst h
  exact ⟨_, rfl, rfl, rfl⟩

/-- Witness for C2 at a concrete input with do_optimization set to false. -/
theorem C2_fragment_only_witness :
    ∃ f, (get_fragmentation_wf (V := Int) (K := Unit) H2O 1 true none false
        ">>max_cores<<" none "FF then fragment" ">>qchem_cmd<<" ">>db_file<<"
        true ()).fireworks = [f] ∧
      f.isFragmentFW = true ∧ f.parentsArg = none :=
  C2_fragment_only H2O 1 true none false ">>max_cores<<" none
    "FF then fragment" ">>qchem_cmd<<" ">>db_file<<" true () rfl

/-- C3, counterexample: at a concrete input the workflow's name is not the
plain concatenation of the reduced formula with the label; the source
inserts a colon between them (line 123). -/
theorem C3_counterexample :
    (get_fragmentation_wf (V := Int) (K := Unit) H2O 1 true none true
        ">>max_cores<<" none "frag" ">>qchem_cmd<<" ">>db_file<<" true
        ()).name ≠ "H2O" ++ "frag" := by
  decide

/-- C3 as amended: for every input, the name of the returned workflow equals
the molecule's reduced formula, a colon, and the caller-supplied name label,
concatenated in that order. -/
theorem C3_workflow_name {V K : Type} (molecule : Molecule) (depth : Int)
    (open_rings : Bool) (pcm_dielectric : Option V) (do_optimization : Bool)
    (max_cores : String) (qchem_input_params : Option (Dict V)) (name : String)
    (qchem_cmd : String) (db_file : String) (check_db : Bool) (kwargs : K) :
    (get_fragmentation_wf molecule depth open_rings pcm_dielectric
        do_optimization max_cores qchem_input_params name qchem_cmd db_file
        check_db kwargs).name
      = molecule.composition.reduced_formula ++ ":" ++ name := by
  cases do_optimization <;> rfl

/-- C4, counterexample: at a concrete input with pcm_dielectric provided, the
firework nodes do not receive the caller's qchem_input_params dictionary
unmodified; the "pcm_dielectric" key has been added to it. -/
theorem C4_counterexample :
    ¬ (∀ fw ∈ (get_fragmentation_wf (V := Int) (K := Unit) H2O 1 true (some 10)
        true ">>max_cores<<" (some [("solvent", 3)]) "FF then fragment"
        ">>qchem_cmd<<" ">>db_file<<" true ()).fireworks,
      fw.qipArg = [("solvent", 3)]) := by
  decide

/-- C4 as amended: for every input, max_cores, qchem_cmd and db_file appear
unmodified in every constructed firework node, and every node receives the
same effective qchem_input_params dictionary; that dictionary equals the
caller-supplied one exactly as given whenever pcm_dielectric is None, while
a provided pcm_dielectric is first written into it under the
"pcm_dielectric" key. -/
theorem C4_pass_through {V K : Type} (molecule : Molecule) (depth : Int)
    (open_rings : Bool) (pcm_dielectric : Option V) (do_optimization : Bool)
    (max_cores : String) (qchem_input_params : Option (Dict V)) (name : String)
    (qchem_cmd : String) (db_file : String) (check_db : Bool) (kwargs : K) :
    (∀ fw ∈ (get_fragmentation_wf molecule depth open_rings pcm_dielectric
        do_optimization max_cores qchem_input_params name qchem_cmd db_file
        check_db kwargs).fireworks,
      fw.maxCoresArg = max_cores ∧ fw.qchemCmdArg = qchem_cmd ∧
      fw.dbFileArg = db_file ∧
      fw.qipArg = effective_qchem_input_params pcm_dielectric qchem_input_params) ∧
    (∀ d, pcm_dielectric = none → qchem_input_params = some d →
      effective_qchem_input_params pcm_dielectric qchem_input_params = d) := by
  constructor
  · cases do_optimization <;>
      simp [get_fragmentation_wf, Firework.maxCoresArg, Firework.qchemCmdArg,
        Firework.dbFileArg, Firework.qipArg]
  · intro d hpcm hq
    subst hpcm; subst hq
    simp only [effective_qchem_input_params]
    cases hd : d.isEmpty
    · simp [hd]
    · simp [hd, List.isEmpty_iff.mp hd]

/-- Witness for C4 at a concrete input, discharging the hypotheses of the
second conjunct with pcm_dielectric absent and a supplied dictionary. -/
theorem C4_pass_through_witness :
    ((Firework.FrequencyFlatteningOptimizeFW (V := Int) H2O "first FF"
        ">>qchem_cmd<<" ">>max_cores<<" [("solvent", 3)]
        ">>db_file<<").maxCoresArg = ">>max_cores<<" ∧
      (Firework.FrequencyFlatteningOptimizeFW (V := Int) H2O "first FF"
        ">>qchem_cmd<<" ">>max_cores<<" [("solvent", 3)]
        ">>db_file<<").qchemCmdArg = ">>qchem_cmd<<" ∧
      (Firework.FrequencyFlatteningOptimizeFW (V := Int) H2O "first FF"
        ">>qchem_cmd<<" ">>max_cores<<" [("solvent", 3)]
        ">>db_file<<").dbFileArg = ">>db_file<<" ∧
      (Firework.FrequencyFlatteningOptimizeFW (V := Int) H2O "first FF"
        ">>qchem_cmd<<" ">>max_cores<<" [("solvent", 3)]
        ">>db_file<<").qipArg
        = effective_qchem_input_params none (some [("solvent", 3)])) ∧
    effective_qchem_input_params (none : Option Int) (some [("solvent", 3)])
      = [("solvent", 3)] := by
  have h := C4_pass_through (V := Int) (K := Unit) H2O 1 true none true
    ">>max_cores<<" (some [("solvent", 3)]) "FF then fragment"
    ">>qchem_cmd<<" ">>db_file<<" true ()
  exact ⟨h.1 _ (List.mem_cons_self _ _), h.2 [("solvent", 3)] rfl rfl⟩

/-- C5, counterexample: a supplied empty dictionary is falsy in Python, so
`qchem_input_params or \x7b\x7d` rebinds the local to a fresh dict and the
caller's dictionary is not mutated: with pcm_dielectric provided it does not
end up holding the "pcm_dielectric" key. -/
theorem C5_counterexample :
    qchem_input_params_after (some (10 : Int)) (some [])
      ≠ some (dictSet [] "pcm_dielectric" 10) := by
  decide

/-- C5 as amended: if pcm_dielectric is not None and the caller supplies a
non-empty qchem_input_params dictionary, the call mutates that dictionary in
place by setting its "pcm_dielectric" key to the given value; a supplied
empty dictionary is replaced by a fresh one and left unchanged, and when
pcm_dielectric is None, or no dictionary is supplied, no caller-visible
state is modified. -/
theorem C5_caller_mutation {V : Type} (v : V) (d : Dict V)
    (h : d.isEmpty = false) :
    qchem_input_params_after (some v) (some d)
        = some (dictSet d "pcm_dielectric" v) ∧
    qchem_input_params_after none (some d) = some d ∧
    qchem_input_params_after (some v) (none : Option (Dict V)) = none ∧
    qchem_input_params_after (some v) (some ([] : Dict V)) = some [] := by
  refine ⟨?_, ?_, rfl, rfl⟩
  · simp [qchem_input_params_after, h]
  · simp [qchem_input_params_after]

/-- Witness for C5 at a concrete non-empty dictionary. -/
theorem C5_caller_mutation_witness :
    qchem_input_params_after (some (10 : Int)) (some [("solvent", 3)])
        = some (dictSet [("solvent", 3)] "pcm_dielectric" 10) ∧
    qchem_input_params_after none (some [("solvent", (3 : Int))])
        = some [("solvent", 3)] ∧
    qchem_input_params_after (some (10 : Int)) (none : Option (Dict Int))
        = none ∧
    qchem_input_params_after (some (10 : Int)) (some ([] : Dict Int))
        = some [] :=
  C5_caller_mutation 10 [("solvent", 3)] rfl

/-- C6: get_fragmentation_wf performs no validation, retry or failure
classification: translated with an explicit error channel it returns
`Except.ok` on every input, and the input molecule, however malformed, is
forwarded unchanged into a constructed firework node. -/
theorem C6_no_error_handling {V K : Type} (molecule : Molecule) (depth : Int)
    (open_rings : Bool) (pcm_dielectric : Option V) (do_optimization : Bool)
    (max_cores : String) (qchem_input_params : Option (Dict V)) (name : String)
    (qchem_cmd : String) (db_file : String) (check_db : Bool) (kwargs : K) :
    ∃ w, get_fragmentation_wf_run molecule depth open_rings pcm_dielectric
        do_optimization max_cores qchem_input_params name qchem_cmd db_file
        check_db kwargs = Except.ok w ∧
      ∃ fw ∈ w.fireworks, fw.moleculeArg = some molecule := by
  refine ⟨_, rfl, ?_⟩
  cases do_optimization
  · exact ⟨_, List.mem_singleton.mpr rfl, rfl⟩
  · exact ⟨_, List.mem_cons_self _ _, rfl⟩

/-- C7: for every input, the free-form keyword arguments are forwarded
unchanged to the Workflow container, and changing them changes neither which
fireworks are built nor the workflow name. -/
theorem C7_kwargs_pass_through {V K : Type} (molecule : Molecule) (depth : Int)
    (open_rings : Bool) (pcm_dielectric : Option V) (do_optimization : Bool)
    (max_cores : String) (qchem_input_params : Option (Dict V)) (name : String)
    (qchem_cmd : String) (db_file : String) (check_db : Bool) (k k' : K) :
    (get_fragmentation_wf molecule depth open_rings pcm_dielectric
        do_optimization max_cores qchem_input_params name qchem_cmd db_file
        check_db k).kwargs = k ∧
    (get_fragmentation_wf molecule depth open_rings pcm_dielectric
        do_optimization max_cores qchem_input_params name qchem_cmd db_file
        check_db k).fireworks
      = (get_fragmentation_wf molecule depth open_rings pcm_dielectric
        do_optimization max_cores qchem_input_params name qchem_cmd db_file
        check_db k').fireworks ∧
    (get_fragmentation_wf molecule depth open_rings pcm_dielectric
        do_optimization max_cores qchem_input_params name qchem_cmd db_file
        check_db k).name
      = (get_fragmentation_wf molecule depth open_rings pcm_dielectric
        do_optimization max_cores qchem_input_params name qchem_cmd db_file
        check_db k').name := by
  cases do_optimization <;> exact ⟨rfl, rfl, rfl⟩

/-- C8: for every input and in both branches, the unique fragmentation node
of the returned workflow receives the depth, open_rings and check_db
parameters unchanged. -/
theorem C8_fragment_args {V K : Type} (molecule : Molecule) (depth : Int)
    (open_rings : Bool) (pcm_dielectric : Option V) (do_optimization : Bool)
    (max_cores : String) (qchem_input_params : Option (Dict V)) (name : String)
    (qchem_cmd : String) (db_file : String) (check_db : Bool) (kwargs : K) :
    ∃ fw, ((get_fragmentation_wf molecule depth open_rings pcm_dielectric
        do_optimization max_cores qchem_input_params name qchem_cmd db_file
        check_db kwargs).fireworks.filter (fun f => f.isFragmentFW)) = [fw] ∧
      fw.depthArg = some depth ∧ fw.openRingsArg = some open_rings ∧
      fw.checkDbArg = some check_db := by
  cases do_optimization
  · exact ⟨_, rfl, rfl, rfl, rfl⟩
  · exact ⟨_, rfl, rfl, rfl, rfl⟩

/-- C9: for every input, when do_optimization is true the molecule goes to
the optimization firework only (the fragmentation firework gets none), and
when it is false the molecule goes directly to the fragmentation firework;
a check_db argument is received by the fragmentation firework alone. -/
theorem C9_molecule_and_check_db {V K : Type} (molecule : Molecule)
    (depth : Int) (open_rings : Bool) (pcm_dielectric : Option V)
    (do_optimization : Bool) (max_cores : String)
    (qchem_input_params : Option (Dict V)) (name : String) (qchem_cmd : String)
    (db_file : String) (check_db : Bool) (kwargs : K) :
    ((get_fragmentation_wf molecule depth open_rings pcm_dielectric
        do_optimization max_cores qchem_input_params name qchem_cmd db_file
        check_db kwargs).fireworks.map
          (fun fw => (fw.isFFOpt, fw.isFragmentFW, fw.moleculeArg,
            fw.checkDbArg)))
      = (if do_optimization then
          [(true, false, some molecule, none),
           (false, true, none, some check_db)]
        else
          [(false, true, some molecule, some check_db)]) := by
  cases do_optimization <;> rfl

/-- C10: when qchem_input_params is omitted (None), every constructed
firework receives an empty dictionary, or, when pcm_dielectric is provided,
the one-entry dictionary holding only the "pcm_dielectric" key, never None. -/
theorem C10_default_params {V K : Type} (molecule : Molecule) (depth : Int)
    (open_rings : Bool) (pcm_dielectric : Option V) (do_optimization : Bool)
    (max_cores : String) (qchem_input_params : Option (Dict V)) (name : String)
    (qchem_cmd : String) (db_file : String) (check_db : Bool) (kwargs : K)
    (h : qchem_input_params = none) :
    ((get_fragmentation_wf molecule depth open_rings pcm_dielectric
        do_optimization max_cores qchem_input_params name qchem_cmd db_file
        check_db kwargs).fireworks.map Firework.qipArg)
      = List.replicate
          (get_fragmentation_wf molecule depth open_rings pcm_dielectric
            do_optimization max_cores qchem_input_params name qchem_cmd db_file
            check_db kwargs).fireworks.length
          (match pcm_dielectric with
            | none => []
            | some v => [("pcm_dielectric", v)]) := by
  subst h
  cases do_optimization <;> cases pcm_dielectric <;> rfl

/-- Witness for C10 at a concrete input with the dictionary omitted and a
pcm_dielectric value provided. -/
theorem C10_default_params_witness :
    ((get_fragmentation_wf (V := Int) (K := Unit) H2O 1 true (some 10) true
        ">>max_cores<<" none "FF then fragment" ">>qchem_cmd<<" ">>db_file<<"
        true ()).fireworks.map Firework.qipArg)
      = List.replicate
          (get_fragmentation_wf (V := Int) (K := Unit) H2O 1 true (some 10)
            true ">>max_cores<<" none "FF then fragment" ">>qchem_cmd<<"
            ">>db_file<<" true ()).fireworks.length
          [("pcm_dielectric", 10)] :=
  C10_default_params H2O 1 true (some 10) true ">>max_cores<<" none
    "FF then fragment" ">>qchem_cmd<<" ">>db_file<<" true () rfl

end Atomate
